import Mathlib

/-
  Verification development for the Valve Steam Controller HID driver
  (src/hid-valve-sc.c).  The C code is shallowly embedded: buffers are
  lists of byte values (Nat, < 256 where it matters), machine integers
  are Nat/Int with explicit two's-complement reconstruction, and the
  stateful driver entry points are modelled as pure functions on an
  explicit session state.
-/

/-- Reading a byte from a raw buffer.  The C code indexes a fixed-size
array; out-of-range reads never occur on the buffers the driver is
given (65-byte feature reports, 64-byte input reports), so the default
value 0 is never observable in the modelled paths. -/
def byteAt (l : List Nat) (i : Nat) : Nat := l.getD i 0

/-- Conversion of a 16-bit pattern to a signed value, as the C compiler
performs it when an int holding a value in [0, 0xFFFF] is stored into a
signed 16-bit variable (two's complement). -/
def toS16 (v : Nat) : Int := if v < 32768 then (v : Int) else (v : Int) - 65536

/- Input report offsets, from hid-valve-sc.c lines 48-60. -/

def SC_OFFSET_TYPE : Nat := 2
def SC_OFFSET_LENGTH : Nat := 3
def SC_OFFSET_BUTTONS : Nat := 7
def SC_OFFSET_TRIGGERS_8 : Nat := 11
def SC_OFFSET_LEFT_AXES : Nat := 16
def SC_OFFSET_RIGHT_AXES : Nat := 20
def SC_OFFSET_ACCEL : Nat := 28
def SC_OFFSET_GYRO : Nat := 34

/- Button masks, from hid-valve-sc.c lines 62-79. -/

def SC_BTN_TOUCH_RIGHT : Nat := 0x10000000
def SC_BTN_TOUCH_LEFT : Nat := 0x08000000
def SC_BTN_CLICK_RIGHT : Nat := 0x04000000
def SC_BTN_CLICK_LEFT : Nat := 0x02000000
def SC_BTN_GRIP_RIGHT : Nat := 0x01000000
def SC_BTN_GRIP_LEFT : Nat := 0x00800000
def SC_BTN_START : Nat := 0x00400000
def SC_BTN_MODE : Nat := 0x00200000
def SC_BTN_SELECT : Nat := 0x00100000
def SC_BTN_A : Nat := 0x00008000
def SC_BTN_X : Nat := 0x00004000
def SC_BTN_B : Nat := 0x00002000
def SC_BTN_Y : Nat := 0x00001000
def SC_BTN_SHOULDER_LEFT : Nat := 0x00000800
def SC_BTN_SHOULDER_RIGHT : Nat := 0x00000400
def SC_BTN_TRIGGER_LEFT : Nat := 0x00000200
def SC_BTN_TRIGGER_RIGHT : Nat := 0x00000100

/-- Little-endian field reconstruction: the loop
"for (i = 0; i < nbytes; ++i) acc |= raw[off+i] << i*8" from
valve_sc_parse_input_events (hid-valve-sc.c lines 325-342). -/
def le_field (raw : List Nat) (off : Nat) (nbytes : Nat) : Nat :=
  (List.range nbytes).foldl (fun acc i => acc ||| byteAt raw (off + i) <<< (i * 8)) 0

/-- The decoded snapshot: the local variables of valve_sc_parse_input_events
after its field-reading loops (hid-valve-sc.c lines 318-342). -/
structure InputSnapshot where
  buttons : Nat
  left0 : Int
  left1 : Int
  right0 : Int
  right1 : Int
  trigger0 : Nat
  trigger1 : Nat
  accel0 : Int
  accel1 : Int
  accel2 : Int
  gyro0 : Int
  gyro1 : Int
  gyro2 : Int
deriving Repr, DecidableEq

/-- The field-reading part of valve_sc_parse_input_events
(hid-valve-sc.c lines 325-342).  The s16 accumulators are modelled by
accumulating the 16-bit pattern as a Nat and converting once at the
end with toS16; this is equivalent to the C accumulation because after
the first byte the accumulator is in [0, 0xFF] and after the second in
[0, 0xFFFF], so the only lossy s16 store is the final one. -/
def decodeSnapshot (raw : List Nat) : InputSnapshot where
  buttons := le_field raw SC_OFFSET_BUTTONS 4
  left0 := toS16 (le_field raw (SC_OFFSET_LEFT_AXES + 2 * 0) 2)
  left1 := toS16 (le_field raw (SC_OFFSET_LEFT_AXES + 2 * 1) 2)
  right0 := toS16 (le_field raw (SC_OFFSET_RIGHT_AXES + 2 * 0) 2)
  right1 := toS16 (le_field raw (SC_OFFSET_RIGHT_AXES + 2 * 1) 2)
  trigger0 := byteAt raw (SC_OFFSET_TRIGGERS_8 + 0)
  trigger1 := byteAt raw (SC_OFFSET_TRIGGERS_8 + 1)
  accel0 := toS16 (le_field raw (SC_OFFSET_ACCEL + 2 * 0) 2)
  accel1 := toS16 (le_field raw (SC_OFFSET_ACCEL + 2 * 1) 2)
  accel2 := toS16 (le_field raw (SC_OFFSET_ACCEL + 2 * 2) 2)
  gyro0 := toS16 (le_field raw (SC_OFFSET_GYRO + 2 * 0) 2)
  gyro1 := toS16 (le_field raw (SC_OFFSET_GYRO + 2 * 1) 2)
  gyro2 := toS16 (le_field raw (SC_OFFSET_GYRO + 2 * 2) 2)

lemma byteAt_lt_256 {raw : List Nat} (hb : ∀ b ∈ raw, b < 256) {i : Nat}
    (hi : i < raw.length) : byteAt raw i < 256 := by
  have h : byteAt raw i = raw[i] := List.getD_eq_getElem raw 0 hi
  rw [h]
  exact hb _ (List.getElem_mem hi)

lemma lor_shiftLeft_eq {a : Nat} (b k : Nat) (h : a < 2 ^ k) :
    a ||| b <<< k = 2 ^ k * b + a := by
  apply Nat.eq_of_testBit_eq
  intro j
  rw [Nat.testBit_or, Nat.testBit_shiftLeft, Nat.testBit_mul_pow_two_add _ h]
  by_cases hj : j < k
  · have hk : ¬ (j ≥ k) := by omega
    simp [hj, hk]
  · have h1 : j ≥ k := by omega
    have h2 : a < 2 ^ j :=
      lt_of_lt_of_le h (Nat.pow_le_pow_right (by norm_num) (by omega))
    simp [hj, h1, Nat.testBit_lt_two_pow h2]

lemma le_field_two (raw : List Nat) (off : Nat)
    (h0 : byteAt raw off < 256) :
    le_field raw off 2 = byteAt raw off + 2 ^ 8 * byteAt raw (off + 1) := by
  have hr : List.range 2 = [0, 1] := rfl
  rw [le_field, hr]
  simp only [List.foldl]
  rw [Nat.zero_or, Nat.mul_comm 0 8, Nat.mul_comm 1 8]
  norm_num [Nat.shiftLeft_zero]
  rw [lor_shiftLeft_eq _ 8 h0]
  omega

lemma le_field_four (raw : List Nat) (off : Nat)
    (h0 : byteAt raw off < 256) (h1 : byteAt raw (off + 1) < 256)
    (h2 : byteAt raw (off + 2) < 256) :
    le_field raw off 4 = byteAt raw off + 2 ^ 8 * byteAt raw (off + 1)
      + 2 ^ 16 * byteAt raw (off + 2) + 2 ^ 24 * byteAt raw (off + 3) := by
  have hr : List.range 4 = [0, 1, 2, 3] := rfl
  rw [le_field, hr]
  simp only [List.foldl]
  rw [Nat.zero_or, Nat.mul_comm 0 8, Nat.mul_comm 1 8, Nat.mul_comm 2 8,
    Nat.mul_comm 3 8]
  norm_num [Nat.shiftLeft_zero]
  rw [lor_shiftLeft_eq _ 8 h0]
  rw [lor_shiftLeft_eq _ 16 (by omega)]
  rw [lor_shiftLeft_eq _ 24 (by omega)]
  omega

/- ===== Feature exchange engine: valve_sc_send_request ===== -/

def SC_FEATURE_REPORT_SIZE : Nat := 65

/-- The distinct failure exits of valve_sc_send_request
(hid-valve-sc.c lines 118-187), using the names of the error taxonomy;
each constructor corresponds to one distinct exit path of the C
function (the C code maps several of them to the same errno). -/
inductive SendError where
  | invalidArgument
  | transportWrite
  | shortWrite
  | transportRead
  | shortRead
  | protocolMismatch
  | answerTooLarge
deriving Repr, DecidableEq

/-- The transport underneath valve_sc_send_request: the two
hid_hw_raw_request calls.  setRet is the return value of the
SET_REPORT call on the frame being written; getRet the return value of
the GET_REPORT call; getFrame the contents of the 65-byte buffer after
the GET_REPORT call (a function of the frame that was written). -/
structure Transport where
  setRet : List Nat → Int
  getRet : List Nat → Int
  getFrame : List Nat → List Nat

/-- The frame built by hid-valve-sc.c lines 133-136.  The buffer comes
from kmalloc (line 129), which does NOT zero it, so the bytes past the
copied payload keep the allocation's prior contents: mem is the
65-byte content of the freshly allocated buffer. -/
def buildFrame (mem : List Nat) (report_id : Nat) (params : List Nat) : List Nat :=
  0 :: report_id :: params.length :: (params ++ mem.drop (3 + params.length))

/-- The frame as the specification describes it: payload bytes then
zero padding up to 65 bytes.  Written from the spec, for comparison
with buildFrame. -/
def specFrame (report_id : Nat) (params : List Nat) : List Nat :=
  0 :: report_id :: params.length :: (params ++ List.replicate (62 - params.length) 0)

/-- Result of one valve_sc_send_request call: the returned status
(none = success), plus the final contents of the two caller-owned
output locations, the answer buffer and the *answer_size variable. -/
structure SendResult where
  ret : Option SendError
  answer : List Nat
  answerSize : Nat
deriving Repr, DecidableEq

/-- valve_sc_send_request (hid-valve-sc.c lines 118-187).  The kmalloc
allocation is modelled by the mem parameter (its failure path, -ENOMEM
before any I/O, is not modelled); wantAnswer models answer != NULL.
answer0 and answerSize0 are the contents of the caller's answer buffer
and answer-size variable before the call; memcpy(answer, &report[3],
*answer_size) overwrites the first *answer_size bytes of the answer
buffer and leaves the rest. -/
def valve_sc_send_request (tr : Transport) (mem : List Nat) (report_id : Nat)
    (params : List Nat) (wantAnswer : Bool)
    (answer0 : List Nat) (answerSize0 : Nat) : SendResult :=
  if params.length > 62 then ⟨some .invalidArgument, answer0, answerSize0⟩
  else
    let report := buildFrame mem report_id params
    if tr.setRet report < 0 then ⟨some .transportWrite, answer0, answerSize0⟩
    else if tr.setRet report ≠ 65 then ⟨some .shortWrite, answer0, answerSize0⟩
    else if ¬ wantAnswer then ⟨none, answer0, answerSize0⟩
    else if tr.getRet report < 0 then ⟨some .transportRead, answer0, answerSize0⟩
    else if tr.getRet report ≠ 65 then ⟨some .shortRead, answer0, answerSize0⟩
    else
      let report2 := tr.getFrame report
      if byteAt report2 1 ≠ report_id then ⟨some .protocolMismatch, answer0, answerSize0⟩
      else
        let asz := byteAt report2 2
        if asz > 61 then ⟨some .answerTooLarge, answer0, asz⟩
        else ⟨none, (report2.drop 3).take asz ++ answer0.drop asz, asz⟩

/-- The transport of the round-trip scenario: both transfers succeed in
full and the feature-get returns exactly the frame that was written. -/
def echoTransport : Transport where
  setRet := fun _ => 65
  getRet := fun _ => 65
  getFrame := fun report => report

/- ===== Event projector: the reporting part of valve_sc_parse_input_events ===== -/

/-- Absolute axes used by the driver (input_report_abs codes). -/
inductive Abs where
  | X | Y | Z | RX | RY | RZ
  | HAT0X | HAT0Y | HAT1X | HAT1Y
  | GAS | BRAKE
deriving Repr, DecidableEq

/-- Gamepad key codes used by the driver (input_report_key codes);
BTN_STICK_CLICK is the driver's own BTN_GAMEPAD+0xf alias
(hid-valve-sc.c line 81). -/
inductive Key where
  | BTN_SOUTH | BTN_EAST | BTN_WEST | BTN_NORTH
  | BTN_SELECT | BTN_MODE | BTN_START
  | BTN_TL | BTN_TR | BTN_TL2 | BTN_TR2
  | BTN_C | BTN_Z | BTN_THUMBL | BTN_THUMBR | BTN_STICK_CLICK
deriving Repr, DecidableEq

/-- One call into the event sink: input_report_abs, input_report_key
or input_sync. -/
inductive Event where
  | absEv (axis : Abs) (value : Int)
  | keyEv (code : Key) (pressed : Bool)
  | syncEv
deriving Repr, DecidableEq

/-- Driver session state: struct valve_sc_device (hid-valve-sc.c lines
103-116).  hasInput / hasSensor model whether the input / sensor
struct input_dev pointers are non-NULL (i.e. a registered device is
held); the work_struct members are modelled by the scheduled-work
output of raw_event, and uniq is not modelled. -/
structure Session where
  parse_raw_report : Bool
  connected : Bool
  hasInput : Bool
  hasSensor : Bool
  center_touchpads : Bool
  automouse : Bool
  autobuttons : Bool
  orientation : Nat
deriving Repr, DecidableEq

/-- The events sent to the gamepad input device by
valve_sc_parse_input_events when sc->input is non-NULL
(hid-valve-sc.c lines 344-396), in call order. -/
def inputEvents (sc : Session) (s : InputSnapshot) : List Event :=
  (if s.buttons &&& SC_BTN_TOUCH_LEFT ≠ 0 then
    [.absEv .HAT0X s.left0, .absEv .HAT0Y (-s.left1)]
  else if sc.center_touchpads = true ∧ s.left0 = 0 ∧ s.left1 = 0 then
    [.absEv .HAT0X 0, .absEv .HAT0Y 0]
  else [])
  ++ (if sc.center_touchpads = true ∨ s.buttons &&& SC_BTN_TOUCH_RIGHT ≠ 0 then
    [.absEv .HAT1X s.right0, .absEv .HAT1Y (-s.right1)]
  else [])
  ++ [.absEv .BRAKE (s.trigger0 : Int), .absEv .GAS (s.trigger1 : Int)]
  ++ (if s.buttons &&& SC_BTN_TOUCH_LEFT ≠ 0 then
    [.keyEv .BTN_THUMBL (s.buttons &&& SC_BTN_CLICK_LEFT ≠ 0)]
  else
    [.keyEv .BTN_STICK_CLICK (s.buttons &&& SC_BTN_CLICK_LEFT ≠ 0),
     .absEv .X s.left0, .absEv .Y (-s.left1)])
  ++ (if s.buttons &&& SC_BTN_TOUCH_RIGHT ≠ 0 then
    [.keyEv .BTN_THUMBR (s.buttons &&& SC_BTN_CLICK_RIGHT ≠ 0)]
  else [])
  ++ [.keyEv .BTN_SOUTH (s.buttons &&& SC_BTN_A ≠ 0),
      .keyEv .BTN_EAST (s.buttons &&& SC_BTN_B ≠ 0),
      .keyEv .BTN_WEST (s.buttons &&& SC_BTN_X ≠ 0),
      .keyEv .BTN_NORTH (s.buttons &&& SC_BTN_Y ≠ 0),
      .keyEv .BTN_SELECT (s.buttons &&& SC_BTN_SELECT ≠ 0),
      .keyEv .BTN_MODE (s.buttons &&& SC_BTN_MODE ≠ 0),
      .keyEv .BTN_START (s.buttons &&& SC_BTN_START ≠ 0),
      .keyEv .BTN_TL (s.buttons &&& SC_BTN_SHOULDER_LEFT ≠ 0),
      .keyEv .BTN_TR (s.buttons &&& SC_BTN_SHOULDER_RIGHT ≠ 0),
      .keyEv .BTN_TL2 (s.buttons &&& SC_BTN_TRIGGER_LEFT ≠ 0),
      .keyEv .BTN_TR2 (s.buttons &&& SC_BTN_TRIGGER_RIGHT ≠ 0),
      .keyEv .BTN_C (s.buttons &&& SC_BTN_GRIP_LEFT ≠ 0),
      .keyEv .BTN_Z (s.buttons &&& SC_BTN_GRIP_RIGHT ≠ 0),
      .syncEv]

/-- The events sent to the sensor input device by
valve_sc_parse_input_events when sc->sensor is non-NULL
(hid-valve-sc.c lines 398-406). -/
def sensorEvents (s : InputSnapshot) : List Event :=
  [.absEv .X s.accel0, .absEv .Y s.accel1, .absEv .Z s.accel2,
   .absEv .RX s.gyro0, .absEv .RY s.gyro1, .absEv .RZ s.gyro2,
   .syncEv]

/-- valve_sc_parse_input_events (hid-valve-sc.c lines 315-407):
decodes the fields and emits the events for the two sinks (gamepad
device first, sensor device second). -/
def valve_sc_parse_input_events (sc : Session) (raw : List Nat) :
    List Event × List Event :=
  let s := decodeSnapshot raw
  ((if sc.hasInput then inputEvents sc s else []),
   (if sc.hasSensor then sensorEvents s else []))

/- ===== Device lifecycle: valve_sc_raw_event ===== -/

/-- The two work items the driver can schedule: connect_work runs
valve_sc_init_device (setup), disconnect_work runs
valve_sc_stop_device (teardown). -/
inductive Work where
  | setup
  | teardown
deriving Repr, DecidableEq

/-- valve_sc_raw_event (hid-valve-sc.c lines 669-714).  Pure model:
returns the updated session, the work items scheduled by this call (in
order), and the event batches emitted to the gamepad and sensor sinks.
The length-byte checks at lines 677 and 684 only log warnings and are
not otherwise observable. -/
def valve_sc_raw_event (sc : Session) (raw : List Nat) (size : Nat) :
    Session × List Work × (List Event × List Event) :=
  if sc.parse_raw_report = true ∧ size = 64 then
    if byteAt raw SC_OFFSET_TYPE = 0x01 then
      (sc, [],
       if sc.hasInput = true ∨ sc.hasSensor = true then
         valve_sc_parse_input_events sc raw
       else ([], []))
    else if byteAt raw SC_OFFSET_TYPE = 0x03 then
      if byteAt raw 4 = 0x01 then
        (if sc.connected = true then
          ({sc with connected := false}, [.teardown], ([], []))
        else (sc, [], ([], [])))
      else if byteAt raw 4 = 0x02 then
        (if ¬ sc.connected = true then
          ({sc with connected := true}, [.setup], ([], []))
        else (sc, [], ([], [])))
      else (sc, [], ([], []))
    else (sc, [], ([], []))
  else (sc, [], ([], []))

/- ===== Probe: descriptor matching ===== -/

def RAW_REPORT_DESC_SIZE : Nat := 33

/-- The constant capability descriptor raw_report_desc
(hid-valve-sc.c lines 29-46). -/
def raw_report_desc : List Nat :=
  [0x06, 0x00, 0xFF,
   0x09, 0x01,
   0xA1, 0x01,
   0x15, 0x00,
   0x26, 0xFF, 0x00,
   0x75, 0x08,
   0x95, 0x40,
   0x09, 0x01,
   0x81, 0x02,
   0x95, 0x40,
   0x09, 0x01,
   0x91, 0x02,
   0x95, 0x40,
   0x09, 0x01,
   0xB1, 0x02,
   0xC0]

/-- C strncmp on byte buffers: stops at the first differing byte, at a
0x00 byte (string terminator) found while bytes are equal, or after n
bytes.  The catch-all returns 0 for exhausted buffers; in the driver
both buffers hold at least n bytes so it is never reached. -/
def strncmp : List Nat → List Nat → Nat → Int
  | _, _, 0 => 0
  | x :: xs, y :: ys, n + 1 =>
    if x ≠ y then (x : Int) - (y : Int)
    else if x = 0 then 0
    else strncmp xs ys n
  | _, _, _ + 1 => 0

/-- The descriptor test in valve_sc_probe (hid-valve-sc.c lines
746-747): the proprietary raw-report protocol is enabled exactly when
hdev->rsize equals 33 and strncmp of the descriptor against
raw_report_desc over 33 bytes returns 0. -/
def probe_enables_raw (rdesc : List Nat) : Bool :=
  rdesc.length == RAW_REPORT_DESC_SIZE &&
    strncmp rdesc raw_report_desc RAW_REPORT_DESC_SIZE == 0

/-- A 33-byte descriptor that agrees with raw_report_desc only on its
first two bytes (0x06, 0x00) and is zero everywhere else. -/
def bogus_desc : List Nat := 0x06 :: 0x00 :: List.replicate 31 0

/- ===== Device setup: valve_sc_init_device sink creation ===== -/

/-- valve_sc_init_input (hid-valve-sc.c lines 409-477), modelled on
its control flow: if input_allocate_device fails the handle stays NULL
and -ENOMEM (-12) is returned; if input_register_device fails the
device is freed, the handle is reset to NULL and the (negative)
register error is returned, represented as -5; on success the handle
holds the registered device and 0 is returned.  Error code values are
only logged by the caller, so their exact values are immaterial. -/
def valve_sc_init_input (allocOk regOk : Bool) (sc : Session) : Session × Int :=
  if allocOk = false then ({sc with hasInput := false}, -12)
  else if regOk = false then ({sc with hasInput := false}, -5)
  else ({sc with hasInput := true}, 0)

/-- valve_sc_init_sensor (hid-valve-sc.c lines 514-565), same control
flow as valve_sc_init_input but for the sensor device. -/
def valve_sc_init_sensor (allocOk regOk : Bool) (sc : Session) : Session × Int :=
  if allocOk = false then ({sc with hasSensor := false}, -12)
  else if regOk = false then ({sc with hasSensor := false}, -5)
  else ({sc with hasSensor := true}, 0)

/-- valve_sc_init_device (hid-valve-sc.c lines 567-637), restricted to
the part that touches the event sinks (lines 628-636).  The preceding
serial fetch and settings pushes (lines 578-626) go through
valve_sc_send_request and never modify sc->input or sc->sensor, and
every failure there is only logged.  A failed sink initialization is
likewise only logged (hid_warn) and execution falls through, returning
0 unconditionally. -/
def valve_sc_init_device (iAllocOk iRegOk sAllocOk sRegOk : Bool)
    (sc : Session) : Session × Int :=
  let r1 := valve_sc_init_input iAllocOk iRegOk sc
  let r2 := valve_sc_init_sensor sAllocOk sRegOk r1.1
  (r2.1, 0)

/- ===== Angle estimator ===== -/

/-- Modelled from the spec: the Angle Estimator tilt of spec section
4.3 belongs to the other protocol-revision variant of this repository
and is absent from src/hid-valve-sc.c (which reports raw absolute
accelerometer/gyroscope axes instead); translated from the spec's
five-region description, with Int.tdiv for C's truncation toward
zero. -/
def tilt (z x : Int) : Int :=
  if 0 < z ∧ -z < x ∧ x < z then Int.tdiv (1000 * x) z
  else if 0 < x ∧ -x < z ∧ z < x then 2000 - Int.tdiv (1000 * z) x
  else if z < 0 ∧ 0 < x ∧ x < -z then 4000 + Int.tdiv (1000 * x) z
  else if x < 0 ∧ x < z ∧ z < -x then -2000 - Int.tdiv (1000 * z) x
  else if z < 0 ∧ z < x ∧ x < 0 then -4000 + Int.tdiv (1000 * x) z
  else 0

/- ===== Theorems ===== -/

/-- A synthetic 64-byte type-0x01 input report with known bytes at the
documented offsets (0xFF,0xFF at the left-axis offset 16). -/
def sampleReport : List Nat :=
  [0, 0, 1, 60, 9, 0, 0,
   0x12, 0x34, 0x56, 0x78,
   0xAB, 0xCD,
   0, 0, 0,
   0xFF, 0xFF, 0x01, 0x80,
   0x02, 0x00, 0xFE, 0xFF,
   0, 0, 0, 0,
   0x34, 0x12, 0x00, 0x80, 0xFF, 0x7F,
   0x01, 0x00, 0xFF, 0xFF, 0x00, 0x80,
   0, 0, 0, 0, 0, 0, 0, 0, 0, 0, 0, 0,
   0, 0, 0, 0, 0, 0, 0, 0, 0, 0, 0, 0]

/-- Claim C1: for every 64-byte input report, the decoder reconstructs
each multi-byte field little-endian from its fixed offset: buttons as
an unsigned 32-bit value from the 4 bytes at offset 7, trigger levels
from offsets 11 and 12, left axes (signed 16-bit) from offsets 16 and
18, right axes from offsets 20 and 22, accelerometer from offsets 28,
30, 32 and gyroscope from offsets 34, 36, 38, with negative 16-bit
values recovered via two's complement so that bytes 0xFF,0xFF decode
to -1. -/
theorem C1_decoder_little_endian (raw : List Nat) (hlen : raw.length = 64)
    (hb : ∀ b ∈ raw, b < 256) :
    (decodeSnapshot raw).buttons
      = byteAt raw 7 + 2 ^ 8 * byteAt raw 8 + 2 ^ 16 * byteAt raw 9
        + 2 ^ 24 * byteAt raw 10 ∧
    (decodeSnapshot raw).trigger0 = byteAt raw 11 ∧
    (decodeSnapshot raw).trigger1 = byteAt raw 12 ∧
    (decodeSnapshot raw).left0 = toS16 (byteAt raw 16 + 2 ^ 8 * byteAt raw 17) ∧
    (decodeSnapshot raw).left1 = toS16 (byteAt raw 18 + 2 ^ 8 * byteAt raw 19) ∧
    (decodeSnapshot raw).right0 = toS16 (byteAt raw 20 + 2 ^ 8 * byteAt raw 21) ∧
    (decodeSnapshot raw).right1 = toS16 (byteAt raw 22 + 2 ^ 8 * byteAt raw 23) ∧
    (decodeSnapshot raw).accel0 = toS16 (byteAt raw 28 + 2 ^ 8 * byteAt raw 29) ∧
    (decodeSnapshot raw).accel1 = toS16 (byteAt raw 30 + 2 ^ 8 * byteAt raw 31) ∧
    (decodeSnapshot raw).accel2 = toS16 (byteAt raw 32 + 2 ^ 8 * byteAt raw 33) ∧
    (decodeSnapshot raw).gyro0 = toS16 (byteAt raw 34 + 2 ^ 8 * byteAt raw 35) ∧
    (decodeSnapshot raw).gyro1 = toS16 (byteAt raw 36 + 2 ^ 8 * byteAt raw 37) ∧
    (decodeSnapshot raw).gyro2 = toS16 (byteAt raw 38 + 2 ^ 8 * byteAt raw 39) ∧
    (byteAt raw 16 = 0xFF → byteAt raw 17 = 0xFF → (decodeSnapshot raw).left0 = -1) := by
  have hB : ∀ i, i < 64 → byteAt raw i < 256 := by
    intro i hi
    exact byteAt_lt_256 hb (by omega)
  refine ⟨?_, rfl, rfl, ?_, ?_, ?_, ?_, ?_, ?_, ?_, ?_, ?_, ?_, ?_⟩
  · show le_field raw SC_OFFSET_BUTTONS 4 = _
    rw [SC_OFFSET_BUTTONS,
      le_field_four raw 7 (hB 7 (by omega)) (hB 8 (by omega)) (hB 9 (by omega))]
  · show toS16 (le_field raw (SC_OFFSET_LEFT_AXES + 2 * 0) 2) = _
    rw [SC_OFFSET_LEFT_AXES]
    norm_num [le_field_two raw 16 (hB 16 (by omega))]
  · show toS16 (le_field raw (SC_OFFSET_LEFT_AXES + 2 * 1) 2) = _
    rw [SC_OFFSET_LEFT_AXES]
    norm_num [le_field_two raw 18 (hB 18 (by omega))]
  · show toS16 (le_field raw (SC_OFFSET_RIGHT_AXES + 2 * 0) 2) = _
    rw [SC_OFFSET_RIGHT_AXES]
    norm_num [le_field_two raw 20 (hB 20 (by omega))]
  · show toS16 (le_field raw (SC_OFFSET_RIGHT_AXES + 2 * 1) 2) = _
    rw [SC_OFFSET_RIGHT_AXES]
    norm_num [le_field_two raw 22 (hB 22 (by omega))]
  · show toS16 (le_field raw (SC_OFFSET_ACCEL + 2 * 0) 2) = _
    rw [SC_OFFSET_ACCEL]
    norm_num [le_field_two raw 28 (hB 28 (by omega))]
  · show toS16 (le_field raw (SC_OFFSET_ACCEL + 2 * 1) 2) = _
    rw [SC_OFFSET_ACCEL]
    norm_num [le_field_two raw 30 (hB 30 (by omega))]
  · show toS16 (le_field raw (SC_OFFSET_ACCEL + 2 * 2) 2) = _
    rw [SC_OFFSET_ACCEL]
    norm_num [le_field_two raw 32 (hB 32 (by omega))]
  · show toS16 (le_field raw (SC_OFFSET_GYRO + 2 * 0) 2) = _
    rw [SC_OFFSET_GYRO]
    norm_num [le_field_two raw 34 (hB 34 (by omega))]
  · show toS16 (le_field raw (SC_OFFSET_GYRO + 2 * 1) 2) = _
    rw [SC_OFFSET_GYRO]
    norm_num [le_field_two raw 36 (hB 36 (by omega))]
  · show toS16 (le_field raw (SC_OFFSET_GYRO + 2 * 2) 2) = _
    rw [SC_OFFSET_GYRO]
    norm_num [le_field_two raw 38 (hB 38 (by omega))]
  · intro h16 h17
    show toS16 (le_field raw (SC_OFFSET_LEFT_AXES + 2 * 0) 2) = -1
    rw [SC_OFFSET_LEFT_AXES]
    norm_num [le_field_two raw 16 (hB 16 (by omega)), h16, h17, toS16]

/-- Witness for C1: the decoder applied to the concrete sampleReport,
whose bytes at offset 16 are 0xFF,0xFF, yields left axis -1. -/
theorem C1_witness : (decodeSnapshot sampleReport).left0 = -1 :=
  (C1_decoder_little_endian sampleReport rfl (by decide)).2.2.2.2.2.2.2.2.2.2.2.2.2
    rfl rfl

/-- Claim C2 (code bug): the claim says every byte of the 65-byte frame
past the copied payload is zero, but the frame buffer comes from
kmalloc, which does not zero memory; with an allocation whose prior
contents are 0xAA, the byte directly after an empty payload is 0xAA,
not 0, so the built frame differs from the zero-padded frame the
specification describes (whose byte 3 is 0). -/
theorem C2_frame_not_zero_padded :
    byteAt (buildFrame (List.replicate 65 0xAA) 0x87 []) 3 = 0xAA ∧
    byteAt (specFrame 0x87 []) 3 = 0 ∧
    buildFrame (List.replicate 65 0xAA) 0x87 [] ≠ specFrame 0x87 [] := by decide

/-- Round-trip behaviour of valve_sc_send_request over the echoing
transport, for any payload of length at most 61. -/
lemma sendRequest_echo (report_id : Nat) (params mem answer0 : List Nat)
    (answerSize0 : Nat) (hlen : params.length ≤ 61) :
    valve_sc_send_request echoTransport mem report_id params true answer0 answerSize0
      = ⟨none, params ++ answer0.drop params.length, params.length⟩ := by
  have h62 : ¬ params.length > 62 := by omega
  have hb1 : byteAt (buildFrame mem report_id params) 1 = report_id := by
    simp [byteAt, buildFrame]
  have hb2 : byteAt (buildFrame mem report_id params) 2 = params.length := by
    simp [byteAt, buildFrame]
  have hdrop : (buildFrame mem report_id params).drop 3
      = params ++ mem.drop (3 + params.length) := by
    simp [buildFrame]
  have htake : (params ++ mem.drop (3 + params.length)).take params.length
      = params := List.take_left params _
  simp only [valve_sc_send_request, echoTransport, h62, if_false]
  norm_num [hb1, hb2, hdrop, htake]
  omega

/-- Claim C3 (amended): for any payload of length at most 61, if the
transport's feature-get echoes back the 65-byte frame that was
written, valve_sc_send_request with an answer requested succeeds, the
answer size equals the payload length, and the returned answer bytes
are exactly the original payload. -/
theorem C3_echo_roundtrip (report_id : Nat) (params mem answer0 : List Nat)
    (answerSize0 : Nat) (hlen : params.length ≤ 61) :
    (valve_sc_send_request echoTransport mem report_id params true answer0
        answerSize0).ret = none ∧
    (valve_sc_send_request echoTransport mem report_id params true answer0
        answerSize0).answerSize = params.length ∧
    (valve_sc_send_request echoTransport mem report_id params true answer0
        answerSize0).answer.take params.length = params := by
  rw [sendRequest_echo report_id params mem answer0 answerSize0 hlen]
  exact ⟨rfl, rfl, List.take_left params _⟩

/-- Counterexample for C3 as stated: a payload of the maximal
permitted request length 62, echoed back unchanged, makes the exchange
fail with answerTooLarge (the answer-size check rejects any length
byte above 61), so the round trip does not succeed for every payload
of length at most 62. -/
theorem C3_counterexample :
    (valve_sc_send_request echoTransport (List.replicate 65 0) 0xae
        (List.replicate 62 7) true (List.replicate 64 0) 0).ret
      = some SendError.answerTooLarge := by decide

/-- Witness for C3: a concrete 3-byte payload round-trips unchanged
through the echoing transport. -/
theorem C3_witness :
    (valve_sc_send_request echoTransport (List.replicate 65 0) 0xae
        [1, 2, 3] true (List.replicate 64 9) 0).answer.take 3 = [1, 2, 3] :=
  (C3_echo_roundtrip 0xae [1, 2, 3] (List.replicate 65 0)
    (List.replicate 64 9) 0 (by decide)).2.2

/-- Claim C4: when an answer is requested and both transfers complete
in full, valve_sc_send_request fails with protocolMismatch whenever
the returned frame's identifier byte differs from the request's (and
then the caller's answer buffer is left untouched, never a
silently-wrong payload), and fails with answerTooLarge whenever the
identifier matches but the returned length byte exceeds 61. -/
theorem C4_mismatch_rejected (tr : Transport) (mem : List Nat) (report_id : Nat)
    (params answer0 : List Nat) (answerSize0 : Nat)
    (hlen : params.length ≤ 62)
    (hset : tr.setRet (buildFrame mem report_id params) = 65)
    (hget : tr.getRet (buildFrame mem report_id params) = 65) :
    (byteAt (tr.getFrame (buildFrame mem report_id params)) 1 ≠ report_id →
      valve_sc_send_request tr mem report_id params true answer0 answerSize0
        = ⟨some SendError.protocolMismatch, answer0, answerSize0⟩) ∧
    (byteAt (tr.getFrame (buildFrame mem report_id params)) 1 = report_id →
      byteAt (tr.getFrame (buildFrame mem report_id params)) 2 > 61 →
      valve_sc_send_request tr mem report_id params true answer0 answerSize0
        = ⟨some SendError.answerTooLarge, answer0,
           byteAt (tr.getFrame (buildFrame mem report_id params)) 2⟩) := by
  have h62 : ¬ params.length > 62 := by omega
  constructor
  · intro hne
    simp only [valve_sc_send_request, h62, if_false, hset]
    norm_num [hne, hget]
  · intro heq hbig
    simp only [valve_sc_send_request, h62, if_false, hset]
    norm_num [heq, hbig, hget]

/-- Witness for C4: a transport echoing a zeroed frame mismatches the
request identifier 0xae and yields protocolMismatch with the answer
buffer untouched. -/
theorem C4_witness :
    valve_sc_send_request
        ⟨fun _ => 65, fun _ => 65, fun _ => List.replicate 65 0⟩
        (List.replicate 65 0) 0xae [] true (List.replicate 64 3) 7
      = ⟨some SendError.protocolMismatch, List.replicate 64 3, 7⟩ :=
  (C4_mismatch_rejected ⟨fun _ => 65, fun _ => 65, fun _ => List.replicate 65 0⟩
    (List.replicate 65 0) 0xae [] (List.replicate 64 3) 7
    (by decide) rfl rfl).1 (by decide)

/-- Claim C10: on every failing answer-requested exchange the caller's
answer buffer is left unmodified; the answer-size out-parameter keeps
its prior value on every failure before the size check and is
overwritten with the returned frame's declared length byte (a value
above 61) exactly on the answerTooLarge failure. -/
theorem C10_failure_frame_effect (tr : Transport) (mem : List Nat)
    (report_id : Nat) (params answer0 : List Nat) (answerSize0 : Nat) :
    ((valve_sc_send_request tr mem report_id params true answer0
        answerSize0).ret ≠ none →
      (valve_sc_send_request tr mem report_id params true answer0
        answerSize0).answer = answer0) ∧
    (∀ e, (valve_sc_send_request tr mem report_id params true answer0
        answerSize0).ret = some e → e ≠ SendError.answerTooLarge →
      (valve_sc_send_request tr mem report_id params true answer0
        answerSize0).answerSize = answerSize0) ∧
    ((valve_sc_send_request tr mem report_id params true answer0
        answerSize0).ret = some SendError.answerTooLarge →
      (valve_sc_send_request tr mem report_id params true answer0
        answerSize0).answerSize
          = byteAt (tr.getFrame (buildFrame mem report_id params)) 2 ∧
      61 < (valve_sc_send_request tr mem report_id params true answer0
        answerSize0).answerSize) := by
  by_cases h1 : params.length > 62
  · simp [valve_sc_send_request, h1]
  by_cases h2 : tr.setRet (buildFrame mem report_id params) < 0
  · simp [valve_sc_send_request, h1, h2]
  by_cases h3 : tr.setRet (buildFrame mem report_id params) = 65
  case neg => simp [valve_sc_send_request, h1, h2, h3]
  by_cases h4 : tr.getRet (buildFrame mem report_id params) < 0
  · simp [valve_sc_send_request, h1, h2, h3, h4]
  by_cases h5 : tr.getRet (buildFrame mem report_id params) = 65
  case neg => simp [valve_sc_send_request, h1, h2, h3, h4, h5]
  by_cases h6 : byteAt (tr.getFrame (buildFrame mem report_id params)) 1 = report_id
  case neg => simp [valve_sc_send_request, h1, h2, h3, h4, h5, h6]
  by_cases h7 : byteAt (tr.getFrame (buildFrame mem report_id params)) 2 > 61
  · simp [valve_sc_send_request, h1, h2, h3, h4, h5, h6, h7]
  · simp [valve_sc_send_request, h1, h2, h3, h4, h5, h6, h7]

/-- Witness for C10: with a transport whose reply declares length 62,
the exchange fails with answerTooLarge, the answer buffer is
untouched, and the answer-size variable now holds 62. -/
theorem C10_witness :
    (valve_sc_send_request
        ⟨fun _ => 65, fun _ => 65, fun _ => 0 :: 0xae :: 62 :: List.replicate 62 1⟩
        (List.replicate 65 0) 0xae [] true (List.replicate 64 3) 7).answer
      = List.replicate 64 3 :=
  (C10_failure_frame_effect
    ⟨fun _ => 65, fun _ => 65, fun _ => 0 :: 0xae :: 62 :: List.replicate 62 1⟩
    (List.replicate 65 0) 0xae [] (List.replicate 64 3) 7).1 (by decide)

/-- A 64-byte type-0x03 connection report with the given body byte at
offset 4. -/
def connReport (body : Nat) : List Nat :=
  0 :: 0 :: 0x03 :: 0x01 :: body :: List.replicate 59 0

/-- Claim C5: lifecycle transitions are driven only by type-0x03
reports and every transition is idempotent: a connect body (0x02)
while already connected and a disconnect body (0x01) while already
disconnected change no state and schedule no work, a paired body
(0x03) never causes a transition, two consecutive 0x02 notifications
from the disconnected state schedule exactly one setup, and a 0x01
received before any 0x02 schedules no teardown. -/
theorem C5_lifecycle_idempotent (sc : Session) (raw : List Nat) (size : Nat) :
    (byteAt raw SC_OFFSET_TYPE ≠ 0x03 →
      (valve_sc_raw_event sc raw size).1 = sc ∧
      (valve_sc_raw_event sc raw size).2.1 = []) ∧
    (byteAt raw SC_OFFSET_TYPE = 0x03 → byteAt raw 4 = 0x02 →
      sc.connected = true →
      valve_sc_raw_event sc raw size = (sc, [], ([], []))) ∧
    (byteAt raw SC_OFFSET_TYPE = 0x03 → byteAt raw 4 = 0x01 →
      sc.connected = false →
      valve_sc_raw_event sc raw size = (sc, [], ([], []))) ∧
    (byteAt raw SC_OFFSET_TYPE = 0x03 → byteAt raw 4 = 0x03 →
      valve_sc_raw_event sc raw size = (sc, [], ([], []))) ∧
    (sc.parse_raw_report = true → size = 64 →
      byteAt raw SC_OFFSET_TYPE = 0x03 → byteAt raw 4 = 0x02 →
      sc.connected = false →
      (valve_sc_raw_event sc raw size).2.1 = [Work.setup] ∧
      (valve_sc_raw_event (valve_sc_raw_event sc raw size).1 raw size).2.1
        = []) := by
  refine ⟨?_, ?_, ?_, ?_, ?_⟩
  · intro hty
    by_cases hg : sc.parse_raw_report = true ∧ size = 64
    · by_cases h1 : byteAt raw SC_OFFSET_TYPE = 0x01
      · simp [valve_sc_raw_event, hg, h1]
      · simp [valve_sc_raw_event, hg, h1, hty]
    · simp [valve_sc_raw_event, hg]
  · intro hty hbody hconn
    by_cases hg : sc.parse_raw_report = true ∧ size = 64
    · simp [valve_sc_raw_event, hg, hty, hbody, hconn]
    · simp [valve_sc_raw_event, hg]
  · intro hty hbody hconn
    by_cases hg : sc.parse_raw_report = true ∧ size = 64
    · simp [valve_sc_raw_event, hg, hty, hbody, hconn]
    · simp [valve_sc_raw_event, hg]
  · intro hty hbody
    by_cases hg : sc.parse_raw_report = true ∧ size = 64
    · simp [valve_sc_raw_event, hg, hty, hbody]
    · simp [valve_sc_raw_event, hg]
  · intro hp hs hty hbody hconn
    have hg : sc.parse_raw_report = true ∧ size = 64 := ⟨hp, hs⟩
    constructor
    · simp [valve_sc_raw_event, hg, hty, hbody, hconn]
    · simp [valve_sc_raw_event, hg, hty, hbody, hconn]

/-- Witness for C5: from a disconnected wireless session, two
consecutive connect notifications schedule exactly one setup. -/
theorem C5_witness :
    (valve_sc_raw_event ⟨true, false, false, false, true, false, false, 0⟩
        (connReport 0x02) 64).2.1 = [Work.setup] ∧
    (valve_sc_raw_event
        (valve_sc_raw_event ⟨true, false, false, false, true, false, false, 0⟩
          (connReport 0x02) 64).1 (connReport 0x02) 64).2.1 = [] :=
  (C5_lifecycle_idempotent ⟨true, false, false, false, true, false, false, 0⟩
    (connReport 0x02) 64).2.2.2.2 rfl rfl (by decide) (by decide) rfl

/-- Test for the two left-touchpad position events (ABS_HAT0X and
ABS_HAT0Y). -/
def isLeftPadEvent : Event → Bool
  | .absEv .HAT0X _ => true
  | .absEv .HAT0Y _ => true
  | _ => false

/-- Claim C6: for every decoded snapshot whose touching-left-pad flag
is clear, the gamepad event batch reports the left touchpad position,
as (0,0), exactly when the centering policy is enabled and both raw
left-axis readings are zero; if any of those conditions fails, no
left-touchpad position event is emitted in that cycle. -/
theorem C6_left_pad_centering (sc : Session) (s : InputSnapshot)
    (hUntouched : s.buttons &&& SC_BTN_TOUCH_LEFT = 0) :
    ((sc.center_touchpads = true ∧ s.left0 = 0 ∧ s.left1 = 0) →
      (inputEvents sc s).filter isLeftPadEvent
        = [.absEv .HAT0X 0, .absEv .HAT0Y 0]) ∧
    (¬ (sc.center_touchpads = true ∧ s.left0 = 0 ∧ s.left1 = 0) →
      (inputEvents sc s).filter isLeftPadEvent = []) := by
  constructor
  · intro hc
    simp only [inputEvents, hUntouched, List.filter_append]
    rw [if_neg (by simp), if_pos hc]
    split <;> split <;> simp [isLeftPadEvent]
  · intro hc
    simp only [inputEvents, hUntouched, List.filter_append]
    rw [if_neg (by simp), if_neg hc]
    split <;> split <;> simp [isLeftPadEvent]

/-- Witness for C6: with centering enabled, pad untouched and both
left axes zero, the concrete snapshot yields exactly the two (0,0)
left-pad events. -/
theorem C6_witness :
    (inputEvents ⟨true, true, true, false, true, false, false, 0⟩
        ⟨0, 0, 0, 5, 6, 7, 8, 0, 0, 0, 0, 0, 0⟩).filter isLeftPadEvent
      = [.absEv .HAT0X 0, .absEv .HAT0Y 0] :=
  (C6_left_pad_centering ⟨true, true, true, false, true, false, false, 0⟩
    ⟨0, 0, 0, 5, 6, 7, 8, 0, 0, 0, 0, 0, 0⟩ (by decide)).1
    ⟨rfl, rfl, rfl⟩

/-- Claim C7 (code bug): the claim says the proprietary protocol is
enabled iff the 33-byte descriptor equals raw_report_desc
byte-for-byte, but valve_sc_probe compares with strncmp, which stops
at the first 0x00 byte; raw_report_desc has byte 1 equal to 0x00, so
only the first two bytes are ever compared, and the 33-byte descriptor
bogus_desc, which differs from raw_report_desc from byte 2 on, also
enables the proprietary protocol. -/
theorem C7_descriptor_match_bug :
    probe_enables_raw bogus_desc = true ∧
    bogus_desc ≠ raw_report_desc ∧
    probe_enables_raw raw_report_desc = true := by decide

/-- The session of a wired device right after hid_hw_open in
valve_sc_probe: raw protocol enabled, connected, no sinks yet. -/
def probedSession : Session := ⟨true, true, false, false, true, false, false, 0⟩

/-- Counterexample for C8 as stated: when gamepad sink creation fails
(allocation failure) while sensor sink creation succeeds,
valve_sc_init_device still leaves the session holding a registered
sensor input device, so setup is not abandoned at the failure and a
partial sink does exist. -/
theorem C8_counterexample :
    ((valve_sc_init_device false true true true probedSession).1.hasSensor = true ∧
     (valve_sc_init_device false true true true probedSession).1.hasInput = false) := by
  decide

/-- Claim C8 (amended): if creation of an event sink fails during
device setup, the failure is only logged and setup continues; the
failed sink's handle is left absent, so no partially-registered device
is retained for that sink, but the other sink may still be created and
registered, and valve_sc_init_device returns 0 regardless.  (Since the
connected flag stays set, a connect notification alone does not retry
setup; a disconnect must intervene first.) -/
theorem C8_sink_failure_continues (iAllocOk iRegOk sAllocOk sRegOk : Bool)
    (sc : Session) :
    (valve_sc_init_device iAllocOk iRegOk sAllocOk sRegOk sc).2 = 0 ∧
    (¬ (iAllocOk = true ∧ iRegOk = true) →
      (valve_sc_init_device iAllocOk iRegOk sAllocOk sRegOk sc).1.hasInput
        = false) ∧
    (¬ (sAllocOk = true ∧ sRegOk = true) →
      (valve_sc_init_device iAllocOk iRegOk sAllocOk sRegOk sc).1.hasSensor
        = false) ∧
    ((iAllocOk = true ∧ iRegOk = true) →
      (valve_sc_init_device iAllocOk iRegOk sAllocOk sRegOk sc).1.hasInput
        = true) ∧
    ((sAllocOk = true ∧ sRegOk = true) →
      (valve_sc_init_device iAllocOk iRegOk sAllocOk sRegOk sc).1.hasSensor
        = true) := by
  cases iAllocOk <;> cases iRegOk <;> cases sAllocOk <;> cases sRegOk <;>
    simp [valve_sc_init_device, valve_sc_init_input, valve_sc_init_sensor]

/-- Witness for C8: a failed gamepad-sink registration leaves the
gamepad handle absent. -/
theorem C8_witness :
    (valve_sc_init_device true false true true probedSession).1.hasInput = false :=
  (C8_sink_failure_continues true false true true probedSession).2.1 (by decide)

/-- Claim C9 (spec-modelled): the angle estimator is the five-region
piecewise fixed-point function of spec section 4.3 with divisions
truncating toward zero; in particular tilt 0 0 = 0, tilt 1000 0 = 0,
tilt 0 1000 = 2000, in region one it returns 1000*x/z, and for fixed
positive z it is odd under negating x within region one. -/
theorem C9_tilt_estimator :
    tilt 0 0 = 0 ∧ tilt 1000 0 = 0 ∧ tilt 0 1000 = 2000 ∧
    (∀ z x : Int, 0 < z → -z < x → x < z →
      tilt z x = Int.tdiv (1000 * x) z) ∧
    (∀ z x : Int, 0 < z → -z < x → x < z →
      tilt z (-x) = - tilt z x) := by
  refine ⟨by decide, by decide, by decide, ?_, ?_⟩
  · intro z x hz h1 h2
    rw [tilt, if_pos ⟨hz, h1, h2⟩]
  · intro z x hz h1 h2
    rw [tilt, if_pos (⟨hz, by omega, by omega⟩ : 0 < z ∧ -z < -x ∧ -x < z),
      tilt, if_pos ⟨hz, h1, h2⟩, mul_neg, Int.neg_tdiv]

/-- Witness for C9: oddness at a concrete point of region one. -/
theorem C9_witness : tilt 5 (-3) = - tilt 5 3 :=
  C9_tilt_estimator.2.2.2.2 5 3 (by decide) (by decide) (by decide)
